import Mathlib

/-!
Verification of the `check-http` Sensu plugin (`src/check-http/check-http.go`)
against its natural-language specification.

The plugin issues one HTTP GET and classifies the response.  We embed the
evaluable core shallowly:

* `Exit` mirrors `plugin.Exit` (a message plus a numeric status level,
  OK=0, Warning=1, Critical=2, Unknown=3).
* `CheckHTTP` mirrors the configuration struct of the source (lines 13-20).
* `statusText` transcribes Go's `net/http.StatusText` table; `statusLine`
  mirrors the source's `statusLine` (`fmt.Sprintf("%d %s", code, ...)`).
* `handleResponse`, `initiateRequest` and `Run` mirror the source functions
  of the same names; the network is abstracted as a `RequestResult`
  (success with a response, or a transport failure that is or is not a
  timeout), so `initiateRequest` becomes a pure function of that outcome.

The repository's pattern-check feature (`verifyBody`, the `pattern` /
`missingPattern` flags, and the pre-flight check that both are set) is
absent from the source under `src/` — only its tests appear, and the README
lists "Pattern check" as unimplemented.  Those parts are modelled from the
spec in the `CheckHTTPFull` / `verifyBody` / `handleResponseFull` /
`runFull` definitions below, each marked "Modelled from the spec".
-/

namespace CheckHttp

/-- Status level `plugin.OK` (exit code 0). -/
def OK : Int := 0

/-- Status level `plugin.Warning` (exit code 1). -/
def Warning : Int := 1

/-- Status level `plugin.Critical` (exit code 2). -/
def Critical : Int := 2

/-- Status level `plugin.Unknown` (exit code 3). -/
def Unknown : Int := 3

/-- Mirror of `plugin.Exit`: a verdict message plus a status level. -/
structure Exit where
  Msg : String
  Status : Int
deriving Repr, DecidableEq

/-- Mirror of the `CheckHTTP` struct (src/check-http/check-http.go lines
13-20): the configuration fields bound by the command-line flags.  The
`cmd plugin.Command` field is plumbing and carries no evaluation state. -/
structure CheckHTTP where
  redirectOK : Bool
  responseCode : Int
  timeout : Int
  url : String
deriving Repr, DecidableEq

/-- The part of `http.Response` the plugin reads: the status code, plus the
body bytes (as a string) that `resp.Body` would yield if read. -/
structure Response where
  statusCode : Int
  body : String
deriving Repr, DecidableEq

/-- Transcription of Go's `net/http.StatusText`: the standard reason phrase
for a status code, `""` for unknown codes. -/
def statusText (code : Int) : String :=
  if code = 100 then "Continue"
  else if code = 101 then "Switching Protocols"
  else if code = 102 then "Processing"
  else if code = 103 then "Early Hints"
  else if code = 200 then "OK"
  else if code = 201 then "Created"
  else if code = 202 then "Accepted"
  else if code = 203 then "Non-Authoritative Information"
  else if code = 204 then "No Content"
  else if code = 205 then "Reset Content"
  else if code = 206 then "Partial Content"
  else if code = 207 then "Multi-Status"
  else if code = 208 then "Already Reported"
  else if code = 226 then "IM Used"
  else if code = 300 then "Multiple Choices"
  else if code = 301 then "Moved Permanently"
  else if code = 302 then "Found"
  else if code = 303 then "See Other"
  else if code = 304 then "Not Modified"
  else if code = 305 then "Use Proxy"
  else if code = 307 then "Temporary Redirect"
  else if code = 308 then "Permanent Redirect"
  else if code = 400 then "Bad Request"
  else if code = 401 then "Unauthorized"
  else if code = 402 then "Payment Required"
  else if code = 403 then "Forbidden"
  else if code = 404 then "Not Found"
  else if code = 405 then "Method Not Allowed"
  else if code = 406 then "Not Acceptable"
  else if code = 407 then "Proxy Authentication Required"
  else if code = 408 then "Request Timeout"
  else if code = 409 then "Conflict"
  else if code = 410 then "Gone"
  else if code = 411 then "Length Required"
  else if code = 412 then "Precondition Failed"
  else if code = 413 then "Request Entity Too Large"
  else if code = 414 then "Request URI Too Long"
  else if code = 415 then "Unsupported Media Type"
  else if code = 416 then "Requested Range Not Satisfiable"
  else if code = 417 then "Expectation Failed"
  else if code = 418 then "I\x27m a teapot"
  else if code = 421 then "Misdirected Request"
  else if code = 422 then "Unprocessable Entity"
  else if code = 423 then "Locked"
  else if code = 424 then "Failed Dependency"
  else if code = 425 then "Too Early"
  else if code = 426 then "Upgrade Required"
  else if code = 428 then "Precondition Required"
  else if code = 429 then "Too Many Requests"
  else if code = 431 then "Request Header Fields Too Large"
  else if code = 451 then "Unavailable For Legal Reasons"
  else if code = 500 then "Internal Server Error"
  else if code = 501 then "Not Implemented"
  else if code = 502 then "Bad Gateway"
  else if code = 503 then "Service Unavailable"
  else if code = 504 then "Gateway Timeout"
  else if code = 505 then "HTTP Version Not Supported"
  else if code = 506 then "Variant Also Negotiates"
  else if code = 507 then "Insufficient Storage"
  else if code = 508 then "Loop Detected"
  else if code = 510 then "Not Extended"
  else if code = 511 then "Network Authentication Required"
  else ""

/-- Mirror of the source's `statusLine` (lines 126-128):
`fmt.Sprintf("%d %s", code, http.StatusText(code))`. -/
def statusLine (code : Int) : String :=
  toString code ++ " " ++ statusText code

/-- Mirror of `(*CheckHTTP).handleResponse` (src/check-http/check-http.go
lines 59-90).  Only `resp.StatusCode` is inspected; the body is untouched. -/
def handleResponse (c : CheckHTTP) (resp : Response) : Exit :=
  let status := statusLine resp.statusCode
  if c.responseCode ≠ 200 ∧ c.responseCode ≠ 0 then
    if c.responseCode = resp.statusCode then
      ⟨status, OK⟩
    else
      ⟨"expected HTTP status " ++ statusLine c.responseCode ++ ", got " ++
        statusLine resp.statusCode, Critical⟩
  else if 200 ≤ resp.statusCode ∧ resp.statusCode ≤ 226 then
    ⟨status, OK⟩
  else if 300 ≤ resp.statusCode ∧ resp.statusCode ≤ 308 then
    if c.redirectOK then
      ⟨status, OK⟩
    else
      ⟨status ++ ": unexpected redirection", Warning⟩
  else
    ⟨status, Critical⟩

/-- Outcome of the single `client.Get(c.url)` call: either a response, or a
transport failure, which either is a timeout (`net.Error` with
`Timeout() == true`) or is not, with the underlying error text. -/
inductive RequestResult where
  | success (resp : Response)
  | failure (isTimeout : Bool) (errText : String)
deriving Repr, DecidableEq

/-- Mirror of `(*CheckHTTP).initiateRequest` (lines 92-111): a transport
failure becomes a `Critical` exit (timeout gets the dedicated message), a
response is passed through. -/
def initiateRequest (c : CheckHTTP) (r : RequestResult) : Except Exit Response :=
  match r with
  | .success resp => .ok resp
  | .failure true _ =>
      .error ⟨"Request exceeded timeout of " ++ toString c.timeout ++ " seconds", Critical⟩
  | .failure false e =>
      .error ⟨"Request error: " ++ e, Critical⟩

/-- Mirror of `(*CheckHTTP).Run` (lines 44-57): validate the URL, issue the
request, evaluate the response.  The network outcome is passed in as the
`RequestResult` the `client.Get` call would produce. -/
def Run (c : CheckHTTP) (net : RequestResult) : Exit :=
  if c.url = "" then
    ⟨"no URL specified", Unknown⟩
  else
    match initiateRequest c net with
    | .error e => e
    | .ok resp => handleResponse c resp

/-- Decidable substring test on character lists: does `pat` occur as a
contiguous run inside `l`? -/
def isSubstring (pat : List Char) : List Char → Bool
  | [] => pat.isEmpty
  | c :: cs => pat.isPrefixOf (c :: cs) || isSubstring pat cs

/-- Case-sensitive exact substring containment of `pat` in `s` (the
semantics of Go's `strings.Contains(s, pat)`); no regular-expression
interpretation. -/
def strContains (s pat : String) : Bool :=
  isSubstring pat.toList s.toList

/-- Modelled from the spec: the configuration of the repository version
with pattern support, whose source is missing from src/ (only its tests
appear, constructing `CheckHTTP{pattern: ..., missingPattern: ...}`; the
README lists "Pattern check" as unimplemented).  `pattern` is the
required pattern (`--query`), `missingPattern` the forbidden pattern
(`--negquery`). -/
structure CheckHTTPFull where
  redirectOK : Bool
  responseCode : Int
  timeout : Int
  url : String
  pattern : String
  missingPattern : String
deriving Repr, DecidableEq

/-- The flag fields shared with the version in src/. -/
def CheckHTTPFull.base (c : CheckHTTPFull) : CheckHTTP :=
  ⟨c.redirectOK, c.responseCode, c.timeout, c.url⟩

/-- Modelled from the spec: `verifyBody`, whose source is missing from
src/ (only its tests appear).  Per §4.2 body verification: the required
pattern is active if non-empty, else the forbidden pattern if non-empty,
else none; with a pattern active the full body is read, its byte length N
measured, and containment tested; messages are
`"{status line} found /{pattern}/ in {N} bytes"` when found and
`"did not find /{pattern}/ in {N} bytes"` when not, with levels OK/Critical
as the mode dictates. -/
def verifyBody (c : CheckHTTPFull) (resp : Response) : Exit :=
  let status := statusLine resp.statusCode
  let n := resp.body.utf8ByteSize
  if c.pattern ≠ "" then
    if strContains resp.body c.pattern then
      ⟨status ++ " found /" ++ c.pattern ++ "/ in " ++ toString n ++ " bytes", OK⟩
    else
      ⟨"did not find /" ++ c.pattern ++ "/ in " ++ toString n ++ " bytes", Critical⟩
  else if c.missingPattern ≠ "" then
    if strContains resp.body c.missingPattern then
      ⟨status ++ " found /" ++ c.missingPattern ++ "/ in " ++ toString n ++ " bytes",
        Critical⟩
    else
      ⟨"did not find /" ++ c.missingPattern ++ "/ in " ++ toString n ++ " bytes", OK⟩
  else
    ⟨status, OK⟩

/-- Modelled from the spec: the `handleResponse` of the pattern-supporting
version, missing from src/.  Identical branching to `handleResponse`,
except that a met status expectation proceeds to body verification
(§4.2 step 4) instead of returning OK with the status line directly. -/
def handleResponseFull (c : CheckHTTPFull) (resp : Response) : Exit :=
  let status := statusLine resp.statusCode
  if c.responseCode ≠ 200 ∧ c.responseCode ≠ 0 then
    if c.responseCode = resp.statusCode then
      verifyBody c resp
    else
      ⟨"expected HTTP status " ++ statusLine c.responseCode ++ ", got " ++
        statusLine resp.statusCode, Critical⟩
  else if 200 ≤ resp.statusCode ∧ resp.statusCode ≤ 226 then
    verifyBody c resp
  else if 300 ≤ resp.statusCode ∧ resp.statusCode ≤ 308 then
    if c.redirectOK then
      verifyBody c resp
    else
      ⟨status ++ ": unexpected redirection", Warning⟩
  else
    ⟨status, Critical⟩

/-- The status code meets the configured expectation (§4.2 steps 1-3): the
explicit expected code matches when one is set (neither 0 nor 200), or
with the default policy the code is in [200, 226], or in [300, 308] with
redirection accepted. -/
def expectationMet (c : CheckHTTPFull) (code : Int) : Prop :=
  ((c.responseCode ≠ 200 ∧ c.responseCode ≠ 0) ∧ c.responseCode = code) ∨
  ((c.responseCode = 200 ∨ c.responseCode = 0) ∧
    ((200 ≤ code ∧ code ≤ 226) ∨
      ((300 ≤ code ∧ code ≤ 308) ∧ c.redirectOK = true)))

instance (c : CheckHTTPFull) (code : Int) : Decidable (expectationMet c code) := by
  unfold expectationMet
  exact inferInstance

/-- Modelled from the spec: the `Run` of the pattern-supporting version,
missing from src/.  Pre-flight validation (empty URL; mutually exclusive
pattern flags both set) yields UNKNOWN before the request stage; otherwise
the request is issued and its response evaluated. -/
def runFull (c : CheckHTTPFull) (net : RequestResult) : Exit :=
  if c.url = "" then
    ⟨"no URL specified", Unknown⟩
  else if c.pattern ≠ "" ∧ c.missingPattern ≠ "" then
    ⟨"only one pattern flag may be specified", Unknown⟩
  else
    match initiateRequest c.base net with
    | .error e => e
    | .ok resp => handleResponseFull c resp

end CheckHttp

namespace CheckHttp

/-- Theorems below are stated over these embeddings. -/
theorem statusLine_def (code : Int) :
    statusLine code = toString code ++ " " ++ statusText code := rfl

/-- `isSubstring` decides exactly list-infix containment. -/
theorem isSubstring_iff (pat l : List Char) :
    isSubstring pat l = true ↔ pat <:+: l := by
  induction l with
  | nil => simp [isSubstring]
  | cons c cs ih =>
      simp [isSubstring, List.isPrefixOf_iff_prefix, ih, List.infix_cons_iff]

/-- When the status expectation is met, the pattern-supporting evaluation
hands off to body verification. -/
theorem handleResponseFull_of_expectationMet (c : CheckHTTPFull) (resp : Response)
    (hmet : expectationMet c resp.statusCode) :
    handleResponseFull c resp = verifyBody c resp := by
  rcases hmet with ⟨h1, h2⟩ | ⟨h1, ⟨hl, hh⟩ | ⟨⟨hl, hh⟩, hro⟩⟩
  · simp only [handleResponseFull]
    rw [if_pos h1, if_pos h2]
  · have hne : ¬ (c.responseCode ≠ 200 ∧ c.responseCode ≠ 0) := by
      rcases h1 with h | h <;> simp [h]
    simp only [handleResponseFull]
    rw [if_neg hne, if_pos ⟨hl, hh⟩]
  · have hne : ¬ (c.responseCode ≠ 200 ∧ c.responseCode ≠ 0) := by
      rcases h1 with h | h <;> simp [h]
    have h2xx : ¬ (200 ≤ resp.statusCode ∧ resp.statusCode ≤ 226) := by omega
    simp only [handleResponseFull]
    rw [if_neg hne, if_neg h2xx, if_pos ⟨hl, hh⟩, if_pos hro]


/-- C2: every status code in [200, 226], evaluated with no explicit expected
status code (`responseCode` 0 or 200), no redirect flag and no pattern,
yields OK with the status line `"{code} {reason-phrase}"` as message. -/
theorem handleResponse_success_range (code rc t : Int) (u body : String)
    (h1 : 200 ≤ code) (h2 : code ≤ 226) (hrc : rc = 0 ∨ rc = 200) :
    handleResponse ⟨false, rc, t, u⟩ ⟨code, body⟩ =
      ⟨toString code ++ " " ++ statusText code, OK⟩ := by
  rcases hrc with h | h <;> subst h <;>
    simp [handleResponse, statusLine, h1, h2]

/-- Witness for C2 at code 200 with `responseCode = 0`. -/
theorem handleResponse_success_range_witness :
    handleResponse ⟨false, 0, 15, "http://example.com"⟩ ⟨200, ""⟩ =
      ⟨"200 OK", OK⟩ :=
  handleResponse_success_range 200 0 15 "http://example.com" ""
    (by decide) (by decide) (Or.inl rfl)

/-- C3: with no explicit expected status code, a status code in [300, 308]
yields WARNING `"{status line}: unexpected redirection"` when `redirectOK`
is false and OK when it is true; any status code outside [200, 308] yields
CRITICAL with the status line as message. -/
theorem handleResponse_redirect_and_default_critical
    (code rc t : Int) (ro : Bool) (u body : String)
    (hrc : rc = 0 ∨ rc = 200) :
    (300 ≤ code → code ≤ 308 →
      handleResponse ⟨false, rc, t, u⟩ ⟨code, body⟩ =
        ⟨statusLine code ++ ": unexpected redirection", Warning⟩ ∧
      handleResponse ⟨true, rc, t, u⟩ ⟨code, body⟩ = ⟨statusLine code, OK⟩) ∧
    (¬ (200 ≤ code ∧ code ≤ 308) →
      handleResponse ⟨ro, rc, t, u⟩ ⟨code, body⟩ = ⟨statusLine code, Critical⟩) := by
  constructor
  · intro h1 h2
    have hlo : ¬ (200 ≤ code ∧ code ≤ 226) := by omega
    rcases hrc with h | h <;> subst h <;>
      simp [handleResponse, hlo, h1, h2]
  · intro h
    have h2 : ¬ (200 ≤ code ∧ code ≤ 226) := by omega
    have h3 : ¬ (300 ≤ code ∧ code ≤ 308) := by omega
    rcases hrc with h | h <;> subst h <;>
      simp [handleResponse, h2, h3]

/-- Witness for C3 at codes 301 (both redirect flags) and 404. -/
theorem handleResponse_redirect_and_default_critical_witness :
    handleResponse ⟨false, 0, 15, "u"⟩ ⟨301, ""⟩ =
      ⟨"301 Moved Permanently: unexpected redirection", Warning⟩ ∧
    handleResponse ⟨true, 0, 15, "u"⟩ ⟨301, ""⟩ = ⟨"301 Moved Permanently", OK⟩ ∧
    handleResponse ⟨false, 0, 15, "u"⟩ ⟨404, ""⟩ = ⟨"404 Not Found", Critical⟩ := by
  have h301 := handleResponse_redirect_and_default_critical 301 0 15 false "u" ""
    (Or.inl rfl)
  have h404 := handleResponse_redirect_and_default_critical 404 0 15 false "u" ""
    (Or.inl rfl)
  exact ⟨(h301.1 (by decide) (by decide)).1, (h301.1 (by decide) (by decide)).2,
    h404.2 (by decide)⟩

/-- C5: with an explicit `responseCode` that is neither 0 nor 200 and lies
in the redirect range [300, 308], a response whose status code is also in
[300, 308] but differs from it is classified CRITICAL by the explicit
expectation branch even when `redirectOK` is true. -/
theorem handleResponse_explicit_beats_redirect (code rc t : Int) (u body : String)
    (hrc0 : rc ≠ 0) (hrc200 : rc ≠ 200) (hrc1 : 300 ≤ rc) (hrc2 : rc ≤ 308)
    (h1 : 300 ≤ code) (h2 : code ≤ 308) (hne : code ≠ rc) :
    handleResponse ⟨true, rc, t, u⟩ ⟨code, body⟩ =
      ⟨"expected HTTP status " ++ statusLine rc ++ ", got " ++ statusLine code,
        Critical⟩ := by
  have hne' : ¬ rc = code := fun h => hne h.symm
  simp [handleResponse, hrc0, hrc200, hne']

/-- Witness for C5: expected 302, got 301, with `redirectOK = true`. -/
theorem handleResponse_explicit_beats_redirect_witness :
    handleResponse ⟨true, 302, 15, "u"⟩ ⟨301, ""⟩ =
      ⟨"expected HTTP status 302 Found, got 301 Moved Permanently", Critical⟩ :=
  handleResponse_explicit_beats_redirect 301 302 15 "u" ""
    (by decide) (by decide) (by decide) (by decide) (by decide) (by decide)
    (by decide)

/-- C6: `initiateRequest` turns a timeout failure into a CRITICAL exit with
message `"Request exceeded timeout of {timeout} seconds"`, any other
transport failure into a CRITICAL exit with message
`"Request error: {error text}"`, and never produces a response on failure;
a successful request passes the response through. -/
theorem initiateRequest_spec (c : CheckHTTP) (e : String) (resp : Response) :
    initiateRequest c (.failure true e) =
      .error ⟨"Request exceeded timeout of " ++ toString c.timeout ++ " seconds",
        Critical⟩ ∧
    initiateRequest c (.failure false e) =
      .error ⟨"Request error: " ++ e, Critical⟩ ∧
    initiateRequest c (.success resp) = .ok resp :=
  ⟨rfl, rfl, rfl⟩

/-- C8: with an empty URL, `Run` returns the UNKNOWN exit
`"no URL specified"` and its result does not depend on the network outcome
(no network call is attempted). -/
theorem run_empty_url (c : CheckHTTP) (net net' : RequestResult)
    (h : c.url = "") :
    Run c net = ⟨"no URL specified", Unknown⟩ ∧ Run c net = Run c net' := by
  simp [Run, h]

/-- Witness for C8 with a concrete empty-URL configuration and two distinct
network outcomes. -/
theorem run_empty_url_witness :
    Run ⟨false, 0, 15, ""⟩ (.success ⟨200, ""⟩) = ⟨"no URL specified", Unknown⟩ ∧
    Run ⟨false, 0, 15, ""⟩ (.success ⟨200, ""⟩) =
      Run ⟨false, 0, 15, ""⟩ (.failure false "connection refused") :=
  run_empty_url ⟨false, 0, 15, ""⟩ (.success ⟨200, ""⟩)
    (.failure false "connection refused") rfl

/-- C9: evaluating with `responseCode` explicitly 200 yields exactly the
same exit (level and message) as with `responseCode` 0 (absent), for every
configuration and every response. -/
theorem handleResponse_200_eq_default (ro : Bool) (t : Int) (u : String)
    (resp : Response) :
    handleResponse ⟨ro, 200, t, u⟩ resp = handleResponse ⟨ro, 0, t, u⟩ resp := by
  simp [handleResponse]

/-- C10: the exit of `handleResponse` depends only on the configuration and
the status code; two responses with the same status code and arbitrary
bodies evaluate identically (the body is never read). -/
theorem handleResponse_ignores_body (c : CheckHTTP) (r1 r2 : Response)
    (h : r1.statusCode = r2.statusCode) :
    handleResponse c r1 = handleResponse c r2 := by
  simp [handleResponse, h]

/-- Witness for C10: same status code 503, different bodies. -/
theorem handleResponse_ignores_body_witness :
    handleResponse ⟨false, 0, 15, "u"⟩ ⟨503, "maintenance page"⟩ =
      handleResponse ⟨false, 0, 15, "u"⟩ ⟨503, "secret diagnostics"⟩ :=
  handleResponse_ignores_body ⟨false, 0, 15, "u"⟩ ⟨503, "maintenance page"⟩
    ⟨503, "secret diagnostics"⟩ rfl

/-- C1: with a pattern active (required pattern if non-empty, else the
forbidden pattern if non-empty) and a status code meeting the expectation,
evaluation reaches body verification over the full body of N bytes:
required mode gives OK `"{status line} found /{pattern}/ in {N} bytes"`
when the pattern occurs in the body and CRITICAL
`"did not find /{pattern}/ in {N} bytes"` otherwise; forbidden mode gives
CRITICAL on occurrence and OK otherwise with the same messages; containment
is case-sensitive exact substring matching (list-infix occurrence), with no
regular-expression semantics. -/
theorem pattern_evaluation (c : CheckHTTPFull) (resp : Response)
    (hmet : expectationMet c resp.statusCode) :
    (c.pattern ≠ "" →
      handleResponseFull c resp =
        if strContains resp.body c.pattern then
          ⟨statusLine resp.statusCode ++ " found /" ++ c.pattern ++ "/ in " ++
            toString resp.body.utf8ByteSize ++ " bytes", OK⟩
        else
          ⟨"did not find /" ++ c.pattern ++ "/ in " ++
            toString resp.body.utf8ByteSize ++ " bytes", Critical⟩) ∧
    (c.pattern = "" → c.missingPattern ≠ "" →
      handleResponseFull c resp =
        if strContains resp.body c.missingPattern then
          ⟨statusLine resp.statusCode ++ " found /" ++ c.missingPattern ++ "/ in " ++
            toString resp.body.utf8ByteSize ++ " bytes", Critical⟩
        else
          ⟨"did not find /" ++ c.missingPattern ++ "/ in " ++
            toString resp.body.utf8ByteSize ++ " bytes", OK⟩) ∧
    (∀ pat : String, strContains resp.body pat = true ↔
      pat.toList <:+: resp.body.toList) := by
  have h := handleResponseFull_of_expectationMet c resp hmet
  refine ⟨fun hp => ?_, fun hp hm => ?_, fun pat => isSubstring_iff _ _⟩
  · rw [h]
    simp only [verifyBody]
    rw [if_pos hp]
  · rw [h]
    simp only [verifyBody]
    rw [if_neg (by simp [hp]), if_pos hm]

/-- Witness for C1: required pattern "foo" and forbidden pattern "qux"
against body "foobar" (6 bytes) under a 200 response. -/
theorem pattern_evaluation_witness :
    handleResponseFull ⟨false, 0, 15, "u", "foo", ""⟩ ⟨200, "foobar"⟩ =
      ⟨"200 OK found /foo/ in 6 bytes", OK⟩ ∧
    handleResponseFull ⟨false, 0, 15, "u", "", "qux"⟩ ⟨200, "foobar"⟩ =
      ⟨"did not find /qux/ in 6 bytes", OK⟩ := by
  constructor
  · have h := (pattern_evaluation ⟨false, 0, 15, "u", "foo", ""⟩ ⟨200, "foobar"⟩
      (Or.inr ⟨Or.inr rfl, Or.inl ⟨by decide, by decide⟩⟩)).1 (by decide)
    rw [h]
    rfl
  · have h := ((pattern_evaluation ⟨false, 0, 15, "u", "", "qux"⟩ ⟨200, "foobar"⟩
      (Or.inr ⟨Or.inr rfl, Or.inl ⟨by decide, by decide⟩⟩)).2).1 rfl (by decide)
    rw [h]
    rfl

/-- C4: with `responseCode` explicitly set (neither 0 nor 200), a response
with a different status code is CRITICAL with message
`"expected HTTP status {expected ' ' phrase}, got {actual ' ' phrase}"`
(in both the src evaluation and the pattern-supporting one), while a
matching status code proceeds to body verification; the reason phrase is
the standard name of the code (e.g. 200 "OK", 404 "Not Found") and unknown
codes map to the empty phrase. -/
theorem explicit_expectation (c : CheckHTTPFull) (resp : Response)
    (h0 : c.responseCode ≠ 0) (h200 : c.responseCode ≠ 200) :
    (resp.statusCode ≠ c.responseCode →
      handleResponseFull c resp =
        ⟨"expected HTTP status " ++ statusLine c.responseCode ++ ", got " ++
          statusLine resp.statusCode, Critical⟩ ∧
      handleResponse c.base resp =
        ⟨"expected HTTP status " ++ statusLine c.responseCode ++ ", got " ++
          statusLine resp.statusCode, Critical⟩) ∧
    (resp.statusCode = c.responseCode →
      handleResponseFull c resp = verifyBody c resp) ∧
    statusText 200 = "OK" ∧ statusText 404 = "Not Found" ∧
    statusText 599 = "" := by
  refine ⟨fun hne => ?_, fun heq => ?_, rfl, rfl, rfl⟩
  · have hne' : ¬ c.responseCode = resp.statusCode := fun h => hne h.symm
    constructor
    · simp only [handleResponseFull]
      rw [if_pos ⟨h200, h0⟩, if_neg hne']
    · simp only [handleResponse, CheckHTTPFull.base]
      rw [if_pos ⟨h200, h0⟩, if_neg hne']
  · exact handleResponseFull_of_expectationMet c resp
      (Or.inl ⟨⟨h200, h0⟩, heq.symm⟩)

/-- Witness for C4: expected 301, actual 200 is CRITICAL with both reason
phrases; expected 301, actual 301 hands off to body verification. -/
theorem explicit_expectation_witness :
    handleResponseFull ⟨false, 301, 15, "u", "", ""⟩ ⟨200, ""⟩ =
      ⟨"expected HTTP status 301 Moved Permanently, got 200 OK", Critical⟩ ∧
    handleResponse ⟨false, 301, 15, "u"⟩ ⟨200, ""⟩ =
      ⟨"expected HTTP status 301 Moved Permanently, got 200 OK", Critical⟩ ∧
    handleResponseFull ⟨false, 301, 15, "u", "", ""⟩ ⟨301, "body"⟩ =
      verifyBody ⟨false, 301, 15, "u", "", ""⟩ ⟨301, "body"⟩ := by
  have hmis := (explicit_expectation ⟨false, 301, 15, "u", "", ""⟩ ⟨200, ""⟩
    (by decide) (by decide)).1 (by decide)
  have hmat := ((explicit_expectation ⟨false, 301, 15, "u", "", ""⟩ ⟨301, "body"⟩
    (by decide) (by decide)).2).1 rfl
  exact ⟨hmis.1, hmis.2, hmat⟩

/-- C7: with both the required and the forbidden pattern non-empty, the run
returns an UNKNOWN verdict and its result does not depend on the network
outcome (the request stage is never reached). -/
theorem runFull_both_patterns (c : CheckHTTPFull) (net net' : RequestResult)
    (h1 : c.pattern ≠ "") (h2 : c.missingPattern ≠ "") :
    (runFull c net).Status = Unknown ∧ runFull c net = runFull c net' := by
  by_cases hu : c.url = "" <;> simp [runFull, hu, h1, h2]

/-- Witness for C7: both patterns set, two distinct network outcomes. -/
theorem runFull_both_patterns_witness :
    (runFull ⟨false, 0, 15, "http://example.com", "foo", "bar"⟩
      (.success ⟨200, "foo"⟩)).Status = Unknown ∧
    runFull ⟨false, 0, 15, "http://example.com", "foo", "bar"⟩
      (.success ⟨200, "foo"⟩) =
    runFull ⟨false, 0, 15, "http://example.com", "foo", "bar"⟩
      (.failure true "timeout") :=
  runFull_both_patterns ⟨false, 0, 15, "http://example.com", "foo", "bar"⟩
    (.success ⟨200, "foo"⟩) (.failure true "timeout") (by decide) (by decide)

end CheckHttp
